import Mathlib

/-!
# Verification of the lunara external-data caching layer

Shallow embedding of the resilient caching core of the lunara journaling
application: the TTL memory cache (`server/src/utils/cache.js`), the
coordinate/date normalizer and Moon data service
(`server/src/services/moon.js`), and the Tarot data service
(`server/src/services/tarot.js`).

Conventions of the embedding:
* JavaScript timestamps (`Date.now()`, SQL `NOW()`) are integers counting
  milliseconds.
* A JavaScript value that may be `null`/`undefined` is an `Option`:
  `none` is `null` (resp. an absent field).
* JavaScript numbers are rationals (`ℚ`); a conversion that may produce
  `NaN` is modelled as `Option ℚ` with `none` for `NaN`.
* Asynchronous functions are modelled as pure state transformers; an
  upstream HTTP service is a stream `ℕ → _` of responses indexed by a
  global call counter, so "number of network calls performed" is the
  counter delta.  Backoff delays (the ~300ms sleep before a retry) have
  no observable effect in this model and are not represented.
-/

namespace Lunara

/-! ## TTL memory cache (`server/src/utils/cache.js`)

`const store = new Map()` is modelled as an association list keyed by
strings; `Map.set` replaces any existing binding, `Map.delete` removes
it.  A cache entry holds `{ val, exp }` where `val` may be the JS
`null`. -/

structure CacheEntry (α : Type) where
  val : Option α
  exp : Int
deriving Repr, DecidableEq

abbrev Store (α : Type) := List (String × CacheEntry α)

def storeGet {α} (s : Store α) (k : String) : Option (CacheEntry α) :=
  (s.find? (fun p => p.1 = k)).map (·.2)

def storeSet {α} (s : Store α) (k : String) (e : CacheEntry α) : Store α :=
  (k, e) :: s.filter (fun p => p.1 ≠ k)

def storeDelete {α} (s : Store α) (k : String) : Store α :=
  s.filter (fun p => p.1 ≠ k)

/-- `cacheGet(key)`: return `null` on a missing entry; if `Date.now() > exp`,
delete the entry and return `null`; otherwise return the stored value
(which may itself be the stored `null`).  The first component is what the
JS function returns, the second the store after the call. -/
def cacheGet {α} (now : Int) (s : Store α) (k : String) : Option α × Store α :=
  match storeGet s k with
  | none => (none, s)
  | some e => if now > e.exp then (none, storeDelete s k) else (e.val, s)

/-- `cacheSet(key, val, ttlMs)`: store `{ val, exp: Date.now() + ttlMs }`. -/
def cacheSet {α} (now : Int) (s : Store α) (k : String) (v : Option α)
    (ttlMs : Int) : Store α :=
  storeSet s k ⟨v, now + ttlMs⟩

/-- `cacheWrap(key, ttlMs, fn)`:
`const v = cacheGet(key); if (v !== null) return Promise.resolve(v);`
else invoke `fn`, and on success store its result with `ttlMs` and return
it; a rejection propagates and nothing is cached.

The producer `fn` is an asynchronous, possibly failing operation; it is
modelled as a state transformer on `σ` (used below to count invocations
and to thread the upstream call counter) returning `Except ε (Option α)`
(`none` is a resolved JS `null`).  The components of the result are the
settled promise, the store after the call, and the producer state after
the call. -/
def cacheWrap {α ε σ : Type} (now : Int) (s : Store α) (k : String)
    (ttlMs : Int) (fn : σ → Except ε (Option α) × σ) (st : σ) :
    Except ε (Option α) × Store α × σ :=
  match cacheGet now s k with
  | (some v, s') => (.ok (some v), s', st)
  | (none, s') =>
    match fn st with
    | (.ok data, st') => (.ok data, cacheSet now s' k data ttlMs, st')
    | (.error e, st') => (.error e, s', st')

/-- `cacheClear()`. -/
def cacheClear {α} (_ : Store α) : Store α := []

/-- A producer that always succeeds with value `p` and counts its own
invocations in `σ = ℕ` (used to state the TTL-expiry claims). -/
def countingProducer {α} (p : Option α) : ℕ → Except Unit (Option α) × ℕ :=
  fun c => (.ok p, c + 1)

/-! ## Coordinate/date normalizer (`server/src/services/moon.js`)

`round2(n) = Math.round(Number(n) * 100) / 100`.  `Math.round` rounds
half-way cases toward `+∞`: `Math.round(x) = ⌊x + 1/2⌋`. -/

def jsRound (q : ℚ) : ℤ := (q + 1/2).floor

def round2 (q : ℚ) : ℚ := (jsRound (q * 100) : ℚ) / 100

/-- `Number(x)` for an argument that is a number or `null`:
`Number(null) = 0`. -/
def jsNumberOfNullable (q : Option ℚ) : ℚ := q.getD 0

/-- Truthiness of a JS value that is a string or `null`/`undefined`:
only a non-empty string is truthy. -/
def jsTruthyStr (o : Option String) : Bool :=
  match o with
  | none => false
  | some t => t ≠ ""

/-- JS `a || b` on string-or-null values (`""` and `null` are falsy). -/
def jsOrS (a b : Option String) : Option String :=
  if jsTruthyStr a then a else b

/-- The regex test `/^\d{1,2}:\d{2}$/` of `combineDateTime`. -/
def isHHMM (s : String) : Bool :=
  match s.toList with
  | [h, ':', m1, m2] => h.isDigit && m1.isDigit && m2.isDigit
  | [h1, h2, ':', m1, m2] =>
      h1.isDigit && h2.isDigit && m1.isDigit && m2.isDigit
  | _ => false

/-- `combineDateTime(dateYmd, hhmm)`: join `"YYYY-MM-DD"` and `"HH:MM"`
into `"YYYY-MM-DD HH:MM:00"`; `null`, a non-string, a falsy string or a
string not matching `/^\d{1,2}:\d{2}$/` (after trimming) yields `null`. -/
def combineDateTime (dateYmd : String) (hhmm : Option String) : Option String :=
  match hhmm with
  | none => none
  | some s =>
    if s = "" then none
    else if isHHMM s.trim then some (dateYmd ++ " " ++ s.trim ++ ":00")
    else none

/-- Civil date (year, month, day) from a count of days since 1970-01-01,
following the standard era-based algorithm (all divisions on non-negative
operands after the era shift). -/
def civilFromDays (z0 : Int) : Int × Int × Int :=
  let z := z0 + 719468
  let era := Int.fdiv z 146097
  let doe := z - era * 146097
  let yoe := (doe - doe / 1460 + doe / 36524 - doe / 146096) / 365
  let y := yoe + era * 400
  let doy := doe - (365 * yoe + yoe / 4 - yoe / 100)
  let mp := (5 * doy + 2) / 153
  let d := doy - (153 * mp + 2) / 5 + 1
  let m := mp + (if mp < 10 then 3 else -9)
  (y + (if m ≤ 2 then 1 else 0), m, d)

def pad2 (n : Int) : String :=
  if n < 10 then "0" ++ toString n else toString n

/-- `new Date(t).toISOString().slice(0, 10)` for a millisecond timestamp:
the UTC calendar date `"YYYY-MM-DD"`. -/
def ymdOfMs (t : Int) : String :=
  let day := Int.fdiv t 86400000
  let c := civilFromDays day
  toString c.1 ++ "-" ++ pad2 c.2.1 ++ "-" ++ pad2 c.2.2

/-- The `date` argument of `getMoonFor`: either a string or a
timestamp/Date value. -/
inductive DateInput where
  | str (s : String)
  | ms (t : Int)
deriving Repr, DecidableEq

/-- `toYMD(d)`: a string is passed through unchanged; anything else goes
through `new Date(d).toISOString().slice(0, 10)`. -/
def toYMD : DateInput → String
  | .str s => s
  | .ms t => ymdOfMs t

/-- `date || new Date()`: a missing or falsy (`""`) date argument falls
back to the current time. -/
def dateOrNow (now : Int) (date : Option DateInput) : DateInput :=
  match date with
  | none => .ms now
  | some (.str s) => if s = "" then .ms now else .str s
  | some d => d

/-! ## Astronomy upstream client (`server/src/services/moon.js`)

The IPGeolocation astronomy API is a black box; one upstream call either
succeeds with a JSON document, fails with a non-2xx status, or fails at
the transport level.  The JSON document is modelled by the fields the
defensive normalizer probes. -/

structure AstroRawLoc where
  latitude : Option ℚ
  longitude : Option ℚ
  city : Option String
  state_prov : Option String
  country_name : Option String
  locality : Option String
  elevation : Option ℚ
deriving Repr, DecidableEq

structure AstroSub where
  moon_phase : Option String
  moonrise : Option String
  moonset : Option String
deriving Repr, DecidableEq

structure AstroRaw where
  location : Option AstroRawLoc
  astronomy : Option AstroSub
  moon_phase : Option String
  moonPhase : Option String
  moon_status : Option String
  moonrise : Option String
  moonset : Option String
  moon_zodiac : Option String
  moon_sign : Option String
deriving Repr, DecidableEq

inductive AstroResp where
  | ok (raw : AstroRaw)
  | httpErr (status : Nat) (body : String)
  | netFail
deriving Repr, DecidableEq

/-- Errors thrown by the moon service: `status` plus the upstream body
when one was attached for diagnostics. -/
structure MoonErr where
  status : Nat
  msg : String
  body : Option String
deriving Repr, DecidableEq

/-- The normalized `location` part of a moon result. -/
structure MoonLoc where
  lat : Option ℚ
  lon : Option ℚ
  city : Option String
  state : Option String
  country : Option String
  locality : Option String
  elevation : Option ℚ
deriving Repr, DecidableEq

/-- The normalized result of one astronomy upstream call. -/
structure MoonNorm where
  phase : Option String
  moonrise : Option String
  moonset : Option String
  zodiacSign : Option String
  location : MoonLoc
deriving Repr, DecidableEq

/-- The defensive normalization of the upstream JSON (`fetchMoonFromApi`
after a 2xx response): chained `||` fallbacks over candidate keys, and
response coordinates preferred over the caller's inputs. -/
def normalizeAstro (raw : AstroRaw) (lat lon : Option ℚ) : MoonNorm :=
  let loc := raw.location.getD ⟨none, none, none, none, none, none, none⟩
  let phase := jsOrS raw.moon_phase (jsOrS raw.moonPhase
    (jsOrS (raw.astronomy.bind AstroSub.moon_phase) (jsOrS raw.moon_status none)))
  let moonrise := jsOrS raw.moonrise
    (jsOrS (raw.astronomy.bind AstroSub.moonrise) none)
  let moonset := jsOrS raw.moonset
    (jsOrS (raw.astronomy.bind AstroSub.moonset) none)
  let zodiac := jsOrS raw.moon_zodiac (jsOrS raw.moon_sign none)
  let outLat := match loc.latitude with
    | some q => some q
    | none => lat
  let outLon := match loc.longitude with
    | some q => some q
    | none => lon
  { phase := phase, moonrise := moonrise, moonset := moonset,
    zodiacSign := zodiac,
    location :=
      { lat := outLat, lon := outLon,
        city := jsOrS loc.city none,
        state := jsOrS loc.state_prov none,
        country := jsOrS loc.country_name none,
        locality := jsOrS loc.locality none,
        elevation := loc.elevation } }

/-- `fetchMoonFromApi({dateYmd, lat, lon, location, ip})`.
`hasKey` models the presence of `MOON_API_KEY`; `astro` is the upstream
response stream and `calls` the upstream call counter.  Exactly one
`fetch` is performed when the checks pass — there is no retry in this
client.  Returns the result together with the new call counter. -/
def fetchMoonFromApi (hasKey : Bool) (astro : ℕ → AstroResp) (calls : ℕ)
    (dateYmd : String) (lat lon : Option ℚ) (location ip : Option String) :
    Except MoonErr MoonNorm × ℕ :=
  if ¬hasKey then (.error ⟨500, "Missing MOON_API_KEY", none⟩, calls)
  else if lat.isSome && lon.isSome then
    match astro calls with
    | .netFail => (.error ⟨502, "Moon API network error", none⟩, calls + 1)
    | .httpErr st body =>
        (.error ⟨502, "Moon API error: " ++ toString st, some body⟩, calls + 1)
    | .ok raw => (.ok (normalizeAstro raw lat lon), calls + 1)
  else if jsTruthyStr location && jsTruthyStr (location.map String.trim) then
    match astro calls with
    | .netFail => (.error ⟨502, "Moon API network error", none⟩, calls + 1)
    | .httpErr st body =>
        (.error ⟨502, "Moon API error: " ++ toString st, some body⟩, calls + 1)
    | .ok raw => (.ok (normalizeAstro raw lat lon), calls + 1)
  else if jsTruthyStr ip && jsTruthyStr (ip.map String.trim) then
    match astro calls with
    | .netFail => (.error ⟨502, "Moon API network error", none⟩, calls + 1)
    | .httpErr st body =>
        (.error ⟨502, "Moon API error: " ++ toString st, some body⟩, calls + 1)
    | .ok raw => (.ok (normalizeAstro raw lat lon), calls + 1)
  else (.error ⟨400, "No location provided", none⟩, calls)

/-! ## Moon data service durable cache (`moon_data` table) -/

/-- One row of the `moon_data` table.  `moonrise`/`moonset` store the
combined `"YYYY-MM-DD HH:MM:00"` timestamps (or SQL `NULL`). -/
structure MoonRow where
  for_date : String
  lat : ℚ
  lon : ℚ
  phase : Option String
  moonrise : Option String
  moonset : Option String
  created_at : Int
deriving Repr, DecidableEq

abbrev MoonDb := List MoonRow

/-- The `WHERE for_date = $1 AND lat = $2 AND lon = $3` predicate. -/
def moonKeyMatch (d : String) (la lo : ℚ) (r : MoonRow) : Bool :=
  decide (r.for_date = d ∧ r.lat = la ∧ r.lon = lo)

/-- `SELECT ... WHERE for_date = $1 AND lat = $2 AND lon = $3 LIMIT 1`. -/
def findMoonRow (db : MoonDb) (d : String) (la lo : ℚ) : Option MoonRow :=
  db.find? (moonKeyMatch d la lo)

/-- The 24-hour freshness window in milliseconds:
`(NOW() - created_at) <= INTERVAL '24 hours'`. -/
def moonRowFresh (now : Int) (r : MoonRow) : Bool :=
  decide (now - r.created_at ≤ 86400000)

/-- `INSERT ... ON CONFLICT (for_date, lat, lon) DO UPDATE SET phase,
moonrise, moonset, created_at = NOW() RETURNING ...`: atomically insert
or overwrite in place the single row for the key, returning it. -/
def upsertMoonRow (now : Int) (db : MoonDb) (d : String) (la lo : ℚ)
    (ph mr ms : Option String) : MoonRow × MoonDb :=
  let newRow : MoonRow := ⟨d, la, lo, ph, mr, ms, now⟩
  match findMoonRow db d la lo with
  | some _ =>
      (newRow, db.map (fun r => if moonKeyMatch d la lo r then newRow else r))
  | none => (newRow, db ++ [newRow])

/-- The `MoonSnapshot` returned by `getMoonFor`. -/
structure MoonSnapshot where
  date : String
  phase : Option String
  moonrise : Option String
  moonset : Option String
  zodiacSign : Option String
  location : MoonLoc
deriving Repr, DecidableEq

/-- Build the returned payload from a durable row `m` and the
just-fetched normalized result `first`:
`{ date, phase, moonrise, moonset, zodiacSign: first.zodiacSign ?? null,
location: { ...first.location, lat: Number(m.lat), lon: Number(m.lon) } }`. -/
def moonSnapshotOf (m : MoonRow) (first : MoonNorm) : MoonSnapshot :=
  { date := m.for_date, phase := m.phase, moonrise := m.moonrise,
    moonset := m.moonset, zodiacSign := first.zodiacSign,
    location := { first.location with lat := some m.lat, lon := some m.lon } }

/-- `getMoonFor(date, lat, lon, locationStr, ip)`
(`server/src/services/moon.js`):
1. canonicalize the date (`date || new Date()` then `toYMD`);
2. one upstream call resolving the inputs to coords and labels
   (coordinates are pre-rounded before being sent);
3. round the resolved coordinates to the cache key;
4. on a fresh (≤ 24h) durable row, return the row's phase/rise/set merged
   with the fresh labels and zodiac sign;
5. otherwise upsert the freshly fetched fields with `created_at = NOW()`.
Returns the result (or the propagated error), the durable store after the
call, and the upstream call counter after the call.

`moonCachePhase` is steps 3–5 (everything after the upstream call), and
`getMoonFor` is steps 1–2 followed by it. -/
def moonCachePhase (now : Int) (db : MoonDb) (forDate : String)
    (first : MoonNorm) (c : ℕ) :
    Except MoonErr (MoonSnapshot × MoonDb) × ℕ :=
  let rLat := round2 (jsNumberOfNullable first.location.lat)
  let rLon := round2 (jsNumberOfNullable first.location.lon)
  match findMoonRow db forDate rLat rLon with
  | some m =>
    if moonRowFresh now m then (.ok (moonSnapshotOf m first, db), c)
    else
      let u := upsertMoonRow now db forDate rLat rLon first.phase
        (combineDateTime forDate first.moonrise)
        (combineDateTime forDate first.moonset)
      (.ok (moonSnapshotOf u.1 first, u.2), c)
  | none =>
    let u := upsertMoonRow now db forDate rLat rLon first.phase
      (combineDateTime forDate first.moonrise)
      (combineDateTime forDate first.moonset)
    (.ok (moonSnapshotOf u.1 first, u.2), c)

def getMoonFor (hasKey : Bool) (astro : ℕ → AstroResp) (calls : ℕ)
    (now : Int) (db : MoonDb) (date : Option DateInput) (lat lon : Option ℚ)
    (locationStr ip : Option String) :
    Except MoonErr (MoonSnapshot × MoonDb) × ℕ :=
  let forDate := toYMD (dateOrNow now date)
  match fetchMoonFromApi hasKey astro calls forDate
      (lat.map round2) (lon.map round2) locationStr ip with
  | (.error e, c) => (.error e, c)
  | (.ok first, c) => moonCachePhase now db forDate first c

/-! ## Tarot upstream client (`server/src/services/tarot.js`)

`jsonFetch` performs one attempt, classifies the failure, and retries
exactly once (after a ~300ms backoff) when the error's `status` is one of
429/502/503/504.  A timeout (`AbortError` / the `withTimeout` race)
carries status 504; a transport failure carries no status at all, so it
is *not* retried. -/

/-- The body of an outgoing tarot request: absent, the literal `"{}"`, or
`JSON.stringify({ question })`. -/
inductive ReqBody where
  | emptyJson
  | question (q : String)
deriving Repr, DecidableEq

structure TarotReq where
  method : String
  path : String
  body : Option ReqBody
deriving Repr, DecidableEq

/-- One upstream behavior for a single network attempt. -/
inductive TarotAttempt where
  | ok (data : String)
  | httpErr (status : Nat) (errField : Option String)
  | timeout
  | netFail
deriving Repr, DecidableEq

/-- An error thrown by `jsonFetch`: `err.status` (absent on a transport
failure) and `err.message`. -/
structure TarotErr where
  status : Option Nat
  msg : String
deriving Repr, DecidableEq

/-- Outcome of a single attempt inside `jsonFetch`: a 2xx response
resolves with the parsed body; a non-2xx response throws
`{ status, message: data?.error ?? "Tarot API error <status>" }`; an
abort throws `{ status: 504, message: "Upstream timeout" }`; a transport
failure rethrows the `fetch` error, which has no `status`. -/
def runAttempt : TarotAttempt → Except TarotErr String
  | .ok d => .ok d
  | .httpErr st ef =>
      .error ⟨some st,
        match ef with
        | some m => m
        | none => "Tarot API error " ++ toString st⟩
  | .timeout => .error ⟨some 504, "Upstream timeout"⟩
  | .netFail => .error ⟨none, "fetch failed"⟩

/-- `[429, 502, 503, 504].includes(e.status)`. -/
def isTransient (st : Option Nat) : Bool :=
  st == some 429 || st == some 502 || st == some 503 || st == some 504

/-- Result of one `jsonFetch` call: the settled promise, the upstream
call counter after the call, and the wire log (one entry per network
attempt actually performed). -/
structure FetchResult where
  result : Except TarotErr String
  calls : ℕ
  log : List TarotReq
deriving Repr

/-- `jsonFetch(path, opts)`: first attempt; on an error whose status is
transient, exactly one further attempt whose outcome is returned as is;
any other error propagates immediately. -/
def jsonFetch (up : ℕ → TarotAttempt) (n : ℕ) (req : TarotReq) :
    FetchResult :=
  match runAttempt (up n) with
  | .ok d => ⟨.ok d, n + 1, [req]⟩
  | .error e =>
    if isTransient e.status then ⟨runAttempt (up (n + 1)), n + 2, [req, req]⟩
    else ⟨.error e, n + 1, [req]⟩

/-! ## Tarot data service (`server/src/services/tarot.js`, cached
variant) -/

/-- `drawYesNo(payload)` of the cached tarot service: POST the question
when one is supplied, otherwise a plain GET.  The in-memory TTL cache is
passed through untouched — the operation is never cached.  Returns the
settled promise, the (unchanged) cache store, and the upstream call
counter after the call. -/
def drawYesNo (up : ℕ → TarotAttempt) (n : ℕ) (s : Store String)
    (payload : Option String) :
    Except TarotErr String × Store String × ℕ :=
  if jsTruthyStr payload then
    let f := jsonFetch up n
      ⟨"POST", "/yesno", some (.question (payload.getD ""))⟩
    (f.result, s, f.calls)
  else
    let f := jsonFetch up n ⟨"GET", "/yesno", none⟩
    (f.result, s, f.calls)

/-- The fetch-and-cache path of `getCardById` once validation has
passed: `cacheWrap("tarot:card:" + n, 24h, () => jsonFetch("/cards/" + n))`. -/
def cardLookup (up : ℕ → TarotAttempt) (now : Int) (s : Store String)
    (n : ℕ) (m : ℤ) : Except TarotErr (Option String) × Store String × ℕ :=
  cacheWrap now s ("tarot:card:" ++ toString m) 86400000
    (fun c =>
      let f := jsonFetch up c ⟨"GET", "/cards/" ++ toString m, none⟩
      (f.result.map some, f.calls)) n

/-- `getCardById(id)` of the cached tarot service: `const n = Number(id);
if (!Number.isInteger(n) || n <= 0) throw { status: 400, message:
"Invalid id" }` — before any cache or network activity — otherwise fetch
through the 24h cache.  The `id` argument is modelled after the `Number`
coercion: `none` is `NaN` (a non-numeric input). -/
def getCardById (up : ℕ → TarotAttempt) (now : Int) (s : Store String)
    (n : ℕ) (id : Option ℚ) :
    Except TarotErr (Option String) × Store String × ℕ :=
  match id with
  | none => (.error ⟨some 400, "Invalid id"⟩, s, n)
  | some q =>
    if q.den = 1 ∧ 0 < q then cardLookup up now s n q.num
    else (.error ⟨some 400, "Invalid id"⟩, s, n)

/-! ## Legacy tarot service (`server/src/services/tarot.js`, uncached
variant with the 405 GET→POST fallback in `drawYesNo`) -/

/-- Result of one legacy `drawYesNo` call: the settled promise, the
upstream call counter after the call, the wire log, and how many times
the 405 fallback branch (`POST /yesno` with body `"{}"`) ran. -/
structure YesNoOut where
  result : Except TarotErr String
  calls : ℕ
  log : List TarotReq
  fallbacks : ℕ
deriving Repr

/-- Legacy `drawYesNo(payload)`: POST the question when one is supplied;
otherwise `try { return await jsonFetch("/yesno") } catch (e) { if
(e.status === 405) return jsonFetch("/yesno", { method: "POST", body:
"{}" }); throw e; }`. -/
def drawYesNoLegacy (up : ℕ → TarotAttempt) (n : ℕ)
    (payload : Option String) : YesNoOut :=
  if jsTruthyStr payload then
    let f := jsonFetch up n
      ⟨"POST", "/yesno", some (.question (payload.getD ""))⟩
    ⟨f.result, f.calls, f.log, 0⟩
  else
    let g := jsonFetch up n ⟨"GET", "/yesno", none⟩
    match g.result with
    | .ok d => ⟨.ok d, g.calls, g.log, 0⟩
    | .error e =>
      if e.status = some 405 then
        let p := jsonFetch up g.calls ⟨"POST", "/yesno", some .emptyJson⟩
        ⟨p.result, p.calls, g.log ++ p.log, 1⟩
      else ⟨.error e, g.calls, g.log, 0⟩

/-! ## Helper lemmas -/

theorem jsRound_eq_floor (q : ℚ) : jsRound q = ⌊q + 1/2⌋ := by
  rw [jsRound, Rat.floor_def', ← Rat.floor_def]

theorem storeGet_storeSet_self {α} (s : Store α) (k : String)
    (e : CacheEntry α) : storeGet (storeSet s k e) k = some e := by
  simp [storeGet, storeSet]

theorem cacheGet_of_storeGet_none {α} (now : Int) (s : Store α) (k : String)
    (h : storeGet s k = none) : cacheGet now s k = (none, s) := by
  simp [cacheGet, h]

theorem cacheGet_hit {α} (now : Int) (s : Store α) (k : String)
    (e : CacheEntry α) (hg : storeGet s k = some e) (hle : now ≤ e.exp) :
    cacheGet now s k = (e.val, s) := by
  simp only [cacheGet, hg]
  rw [if_neg (by omega)]

theorem cacheGet_expired {α} (now : Int) (s : Store α) (k : String)
    (e : CacheEntry α) (hg : storeGet s k = some e) (hlt : e.exp < now) :
    cacheGet now s k = (none, storeDelete s k) := by
  simp only [cacheGet, hg]
  rw [if_pos (by omega)]

theorem cacheWrap_of_miss {α ε σ} (now : Int) (s : Store α) (k : String)
    (ttl : Int) (fn : σ → Except ε (Option α) × σ) (st : σ)
    (h : (cacheGet now s k).1 = none) :
    cacheWrap now s k ttl fn st =
      match fn st with
      | (.ok data, st') =>
          (.ok data, cacheSet now (cacheGet now s k).2 k data ttl, st')
      | (.error e, st') => (.error e, (cacheGet now s k).2, st') := by
  unfold cacheWrap
  rcases hc : cacheGet now s k with ⟨_ | v, s'⟩
  · rfl
  · rw [hc] at h; simp at h

theorem cacheWrap_of_hit {α ε σ} (now : Int) (s : Store α) (k : String)
    (ttl : Int) (fn : σ → Except ε (Option α) × σ) (st : σ) (v : α)
    (h : (cacheGet now s k).1 = some v) :
    cacheWrap now s k ttl fn st = (.ok (some v), (cacheGet now s k).2, st) := by
  unfold cacheWrap
  rcases hc : cacheGet now s k with ⟨_ | w, s'⟩
  · rw [hc] at h; simp at h
  · rw [hc] at h
    have hwv : w = v := by simpa using h
    subst hwv
    rfl

theorem jsonFetch_calls_gt (up : ℕ → TarotAttempt) (n : ℕ) (req : TarotReq) :
    n < (jsonFetch up n req).calls := by
  unfold jsonFetch
  rcases runAttempt (up n) with e | d
  · by_cases ht : isTransient e.status <;> simp [ht]
  · simp

theorem jsonFetch_calls_le (up : ℕ → TarotAttempt) (n : ℕ) (req : TarotReq) :
    (jsonFetch up n req).calls ≤ n + 2 := by
  unfold jsonFetch
  rcases runAttempt (up n) with e | d
  · by_cases ht : isTransient e.status <;> simp [ht]
  · simp

theorem jsonFetch_log_cases (up : ℕ → TarotAttempt) (n : ℕ)
    (req : TarotReq) :
    (jsonFetch up n req).log = [req] ∨ (jsonFetch up n req).log = [req, req] := by
  unfold jsonFetch
  rcases runAttempt (up n) with e | d
  · by_cases ht : isTransient e.status <;> simp [ht]
  · simp

/-! ## Claim C2: cache-key stability of `round2` -/

/-- C2 (counterexample): `43.612` and `43.616` are within `0.005°` of each
other, yet `round2` maps them to the different key components `43.61` and
`43.62` — the universally quantified claim fails on pairs that straddle a
hundredth boundary. -/
theorem round2_within_half_hundredth_counterexample :
    |(43612/1000 : ℚ) - 43616/1000| ≤ 5/1000 ∧
    round2 (43612/1000) ≠ round2 (43616/1000) := by
  constructor
  · rw [abs_le]; constructor <;> norm_num
  · norm_num [round2, jsRound, Rat.floor_def']

/-- C2 (amended): `round2` rounds to the nearest hundredth — every input
is within `0.005` of its 2-decimal key component — and in particular
`43.6123` and `43.6119` both round to `43.61`; but two inputs within
`0.005°` of *each other* may straddle a boundary and receive different
key components (see the counterexample). -/
theorem round2_nearest_hundredth :
    (∀ q : ℚ, |round2 q - q| ≤ 5/1000) ∧
    round2 (436123/10000) = 4361/100 ∧
    round2 (436119/10000) = 4361/100 := by
  refine ⟨fun q => ?_, by norm_num [round2, jsRound, Rat.floor_def'],
    by norm_num [round2, jsRound, Rat.floor_def']⟩
  have hup := Int.floor_le (q * 100 + 1/2)
  have hlo := Int.sub_one_lt_floor (q * 100 + 1/2)
  have hrw : round2 q - q = ((⌊q * 100 + 1/2⌋ : ℚ) - 100 * q) / 100 := by
    rw [round2, jsRound_eq_floor]
    ring
  rw [hrw, abs_le]
  constructor
  · rw [le_div_iff₀ (by norm_num : (0:ℚ) < 100)]
    linarith
  · rw [div_le_iff₀ (by norm_num : (0:ℚ) < 100)]
    linarith

/-! ## Claim C4: lazy eviction of expired entries on read -/

/-- A concrete store holding one entry whose `expiresAt` equals the
current instant used in the counterexample. -/
def storeAtExpiry : Store ℕ := [("k", ⟨some 1, 100⟩)]

/-- C4 (counterexample): an entry whose `expiresAt` equals the current
time is *not* treated as absent — `cacheGet` at `now = expiresAt = 100`
returns the stored value and leaves the store untouched, because the code
tests `Date.now() > exp` strictly. -/
theorem cacheGet_at_expiry_counterexample :
    storeGet storeAtExpiry "k" = some ⟨some 1, 100⟩ ∧
    cacheGet 100 storeAtExpiry "k" = (some 1, storeAtExpiry) := by
  constructor
  · rfl
  · rfl

/-- C4 (amended): an entry whose `expiresAt` is *strictly* less than the
current time is treated as absent — `cacheGet` returns `null` and deletes
it (lazy eviction) — while an entry read at or before its `expiresAt` is
still returned; so no cache read ever returns a value strictly past its
expiry instant (but a read exactly at the expiry instant does return
it). -/
theorem cacheGet_expiry_eviction {α} (s₁ s₂ : Store α) (k₁ k₂ : String)
    (e₁ e₂ : CacheEntry α) (n₁ n₂ : Int)
    (hg₁ : storeGet s₁ k₁ = some e₁) (hlt : e₁.exp < n₁)
    (hg₂ : storeGet s₂ k₂ = some e₂) (hle : n₂ ≤ e₂.exp) :
    cacheGet n₁ s₁ k₁ = (none, storeDelete s₁ k₁) ∧
    cacheGet n₂ s₂ k₂ = (e₂.val, s₂) :=
  ⟨cacheGet_expired n₁ s₁ k₁ e₁ hg₁ hlt, cacheGet_hit n₂ s₂ k₂ e₂ hg₂ hle⟩

/-- C4 (witness): the amended statement instantiated on concrete stores:
an entry expired at 100 read at 101 is evicted, and an entry read at 99
is returned. -/
theorem cacheGet_expiry_eviction_witness :
    cacheGet 101 storeAtExpiry "k" = (none, storeDelete storeAtExpiry "k") ∧
    cacheGet 99 storeAtExpiry "k" = (some 1, storeAtExpiry) :=
  cacheGet_expiry_eviction storeAtExpiry storeAtExpiry "k" "k"
    ⟨some 1, 100⟩ ⟨some 1, 100⟩ 101 99 rfl (by norm_num) rfl (by norm_num)

/-! ## Claim C3: TTL expiry semantics of `cacheWrap` -/

/-- C3 (counterexample): a producer that resolves the JS `null` defeats
the claimed "exactly once" guarantee — two `cacheWrap` calls for the same
key 100ms apart with `ttl = 1000ms` both invoke the producer (the
invocation counter rises from 0 to 1 on each call). -/
theorem cacheWrap_null_within_ttl_counterexample :
    (cacheWrap 0 ([] : Store ℕ) "k" 1000 (countingProducer none) 0).2.2 = 1 ∧
    (cacheWrap 100
      (cacheWrap 0 ([] : Store ℕ) "k" 1000 (countingProducer none) 0).2.1
      "k" 1000 (countingProducer none) 0).2.2 = 1 := by
  constructor
  · rfl
  · rfl

/-- C3 (amended): for every key, ttl and producer *whose value is not the
JS `null`*: starting from a store without the key, a first `cacheWrap`
invokes the producer once and stores its value; a second call at any time
up to `ttl` after the first returns the cached value without invoking its
producer; a third call strictly later than `ttl` after the first invokes
its producer a second time.  (A `null`-resolving producer is re-invoked
every call — see the counterexample and C10.) -/
theorem cacheWrap_ttl_expiry {α : Type} (v : α) (s₀ : Store α) (k : String)
    (ttl t₁ t₂ t₃ : Int) (p₂ p₃ : Option α) (c₁ c₂ c₃ : ℕ)
    (hmiss : storeGet s₀ k = none) (h₂ : t₂ ≤ t₁ + ttl) (h₃ : t₁ + ttl < t₃) :
    cacheWrap t₁ s₀ k ttl (countingProducer (some v)) c₁ =
      (.ok (some v), cacheSet t₁ s₀ k (some v) ttl, c₁ + 1) ∧
    cacheWrap t₂ (cacheSet t₁ s₀ k (some v) ttl) k ttl
        (countingProducer p₂) c₂ =
      (.ok (some v), cacheSet t₁ s₀ k (some v) ttl, c₂) ∧
    cacheWrap t₃ (cacheSet t₁ s₀ k (some v) ttl) k ttl
        (countingProducer p₃) c₃ =
      (.ok p₃,
        cacheSet t₃ (storeDelete (cacheSet t₁ s₀ k (some v) ttl) k) k p₃ ttl,
        c₃ + 1) := by
  have hget₁ : cacheGet t₁ s₀ k = (none, s₀) :=
    cacheGet_of_storeGet_none t₁ s₀ k hmiss
  have hsget : storeGet (cacheSet t₁ s₀ k (some v) ttl) k =
      some ⟨some v, t₁ + ttl⟩ := storeGet_storeSet_self s₀ k _
  refine ⟨?_, ?_, ?_⟩
  · rw [cacheWrap_of_miss _ _ _ _ _ _ (by rw [hget₁])]
    rw [hget₁]
    rfl
  · have hget₂ : cacheGet t₂ (cacheSet t₁ s₀ k (some v) ttl) k =
        (some v, cacheSet t₁ s₀ k (some v) ttl) :=
      cacheGet_hit _ _ _ _ hsget h₂
    rw [cacheWrap_of_hit _ _ _ _ _ _ v (by rw [hget₂])]
    rw [hget₂]
  · have hget₃ : cacheGet t₃ (cacheSet t₁ s₀ k (some v) ttl) k =
        (none, storeDelete (cacheSet t₁ s₀ k (some v) ttl) k) :=
      cacheGet_expired _ _ _ _ hsget h₃
    rw [cacheWrap_of_miss _ _ _ _ _ _ (by rw [hget₃])]
    rw [hget₃]
    rfl

/-- C3 (witness): the amended statement at `ttl = 1000`, calls at
`t = 0, 100, 1200`, producer value `7`: one invocation, then a cached
hit, then a second invocation. -/
theorem cacheWrap_ttl_expiry_witness :
    cacheWrap 0 ([] : Store ℕ) "k" 1000 (countingProducer (some 7)) 0 =
      (.ok (some 7), cacheSet 0 ([] : Store ℕ) "k" (some 7) 1000, 0 + 1) ∧
    cacheWrap 100 (cacheSet 0 ([] : Store ℕ) "k" (some 7) 1000) "k" 1000
        (countingProducer (some 8)) 1 =
      (.ok (some 7), cacheSet 0 ([] : Store ℕ) "k" (some 7) 1000, 1) ∧
    cacheWrap 1200 (cacheSet 0 ([] : Store ℕ) "k" (some 7) 1000) "k" 1000
        (countingProducer (some 9)) 1 =
      (.ok (some 9),
        cacheSet 1200
          (storeDelete (cacheSet 0 ([] : Store ℕ) "k" (some 7) 1000) "k")
          "k" (some 9) 1000, 1 + 1) :=
  cacheWrap_ttl_expiry 7 [] "k" 1000 0 100 1200 (some 8) (some 9) 0 1 1
    rfl (by norm_num) (by norm_num)

/-! ## Claim C10: a produced `null` is stored but never served -/

/-- C10: when the producer resolves the JS `null` on a miss, `cacheWrap`
stores the `null` under the key via `cacheSet`, yet `cacheGet` returns
`null` for that entry at every later time — indistinguishable from
absence — so every subsequent `cacheWrap` for the key (even within the
TTL) misses, invokes its producer again, and returns the fresh producer
value: a `null`-valued result is never served from the cache. -/
theorem cacheWrap_null_never_served {α : Type} (s : Store α) (k : String)
    (ttl now₁ : Int) (c₁ : ℕ) (hmiss : (cacheGet now₁ s k).1 = none) :
    cacheWrap now₁ s k ttl (countingProducer (none : Option α)) c₁ =
      (.ok none, cacheSet now₁ (cacheGet now₁ s k).2 k none ttl, c₁ + 1) ∧
    storeGet (cacheSet now₁ (cacheGet now₁ s k).2 k none ttl) k =
      some ⟨none, now₁ + ttl⟩ ∧
    (∀ now₂ : Int,
      (cacheGet now₂ (cacheSet now₁ (cacheGet now₁ s k).2 k none ttl) k).1 =
        none) ∧
    (∀ (now₂ : Int) (p₂ : Option α) (c₂ : ℕ),
      cacheWrap now₂ (cacheSet now₁ (cacheGet now₁ s k).2 k none ttl) k ttl
          (countingProducer p₂) c₂ =
        (.ok p₂,
          cacheSet now₂
            (cacheGet now₂
              (cacheSet now₁ (cacheGet now₁ s k).2 k none ttl) k).2
            k p₂ ttl, c₂ + 1)) := by
  have hsget : storeGet (cacheSet now₁ (cacheGet now₁ s k).2 k none ttl) k =
      some ⟨none, now₁ + ttl⟩ := storeGet_storeSet_self _ k _
  have hnull : ∀ now₂ : Int,
      (cacheGet now₂ (cacheSet now₁ (cacheGet now₁ s k).2 k none ttl) k).1 =
        none := by
    intro now₂
    by_cases hcmp : now₁ + ttl < now₂
    · rw [cacheGet_expired _ _ _ _ hsget hcmp]
    · rw [cacheGet_hit _ _ _ _ hsget
        (by show now₂ ≤ now₁ + ttl; omega)]
  refine ⟨?_, hsget, hnull, ?_⟩
  · rw [cacheWrap_of_miss _ _ _ _ _ _ hmiss]
    rfl
  · intro now₂ p₂ c₂
    rw [cacheWrap_of_miss _ _ _ _ _ _ (hnull now₂)]
    rfl

/-- C10 (witness): the statement instantiated with an empty store, key
`"k"`, `ttl = 1000`, first call at time 0 and a re-invocation at time
500 — well inside the TTL — whose producer value `some 7` is returned
fresh. -/
theorem cacheWrap_null_never_served_witness :
    (cacheGet 0 ([] : Store ℕ) "k").1 = none ∧
    cacheWrap 500
        (cacheSet 0 (cacheGet 0 ([] : Store ℕ) "k").2 "k" none 1000)
        "k" 1000 (countingProducer (some 7)) 0 =
      (.ok (some 7),
        cacheSet 500
          (cacheGet 500
            (cacheSet 0 (cacheGet 0 ([] : Store ℕ) "k").2 "k" none 1000)
            "k").2
          "k" (some 7) 1000, 0 + 1) :=
  ⟨rfl, (cacheWrap_null_never_served ([] : Store ℕ) "k" 1000 0 0 rfl).2.2.2
    500 (some 7) 0⟩


/-! ## Claim C5: retry policy of the upstream clients -/

/-- The empty JSON document used by the C5 counterexample. -/
def astroRawEmpty : AstroRaw :=
  ⟨none, none, none, none, none, none, none, none, none⟩

/-- An astronomy upstream that answers 503 to the first call and 200 to
every later call. -/
def astro503Then200 : ℕ → AstroResp :=
  fun i => if i = 0 then .httpErr 503 "busy" else .ok astroRawEmpty

/-- C5 (counterexample): the claim covers "Tarot and Astronomy alike",
but the astronomy client `fetchMoonFromApi` has no retry at all: against
an upstream answering 503 then 200 it fails with a 502-classified error
after exactly one network call, instead of succeeding with two calls. -/
theorem fetchMoon_no_retry_counterexample :
    astro503Then200 0 = .httpErr 503 "busy" ∧
    astro503Then200 1 = .ok astroRawEmpty ∧
    fetchMoonFromApi true astro503Then200 0 "2025-08-23"
        (some 43) (some (-116)) none none =
      (.error ⟨502, "Moon API error: 503", some "busy"⟩, 1) := by
  refine ⟨rfl, rfl, ?_⟩
  rfl

/-- C5 (amended): the *tarot* client `jsonFetch` retries exactly once,
after a ~300ms backoff, on failures carrying status 429/502/503/504: a
503 followed by a 200 succeeds with exactly 2 network calls; two 503s in
a row fail with exactly 2 calls; every call performs between 1 and 2
attempts; a non-transient failure propagates immediately after exactly
one attempt.  The *astronomy* client `fetchMoonFromApi` performs no
retry: an upstream 503 fails it after exactly one call (surfaced with
status 502), even when a second attempt would have succeeded. -/
theorem jsonFetch_retry_policy (up₁ up₂ : ℕ → TarotAttempt) (n₁ n₂ : ℕ)
    (req₁ req₂ : TarotReq) (d : String) (ef₁ ef₂ ef₃ : Option String)
    (astro : ℕ → AstroResp) (c : ℕ) (dt : String) (la lo : ℚ)
    (body : String)
    (h1a : up₁ n₁ = .httpErr 503 ef₁) (h1b : up₁ (n₁ + 1) = .ok d)
    (h2a : up₂ n₂ = .httpErr 503 ef₂)
    (h2b : up₂ (n₂ + 1) = .httpErr 503 ef₃)
    (h3 : astro c = .httpErr 503 body) :
    jsonFetch up₁ n₁ req₁ = ⟨.ok d, n₁ + 2, [req₁, req₁]⟩ ∧
    (∃ msg, jsonFetch up₂ n₂ req₂ =
      ⟨.error ⟨some 503, msg⟩, n₂ + 2, [req₂, req₂]⟩) ∧
    (∀ (up : ℕ → TarotAttempt) (n : ℕ) (req : TarotReq),
      n + 1 ≤ (jsonFetch up n req).calls ∧ (jsonFetch up n req).calls ≤ n + 2) ∧
    (∀ (up : ℕ → TarotAttempt) (n : ℕ) (req : TarotReq) (e : TarotErr),
      runAttempt (up n) = .error e → isTransient e.status = false →
      jsonFetch up n req = ⟨.error e, n + 1, [req]⟩) ∧
    fetchMoonFromApi true astro c dt (some la) (some lo) none none =
      (.error ⟨502, "Moon API error: " ++ toString 503, some body⟩, c + 1) := by
  refine ⟨?_, ?_, ?_, ?_, ?_⟩
  · unfold jsonFetch
    rw [h1a, h1b]
    rfl
  · unfold jsonFetch
    rw [h2a, h2b]
    cases ef₃ with
    | none => exact ⟨"Tarot API error " ++ toString 503, rfl⟩
    | some m => exact ⟨m, rfl⟩
  · intro up n req
    exact ⟨jsonFetch_calls_gt up n req, jsonFetch_calls_le up n req⟩
  · intro up n req e herr hnt
    unfold jsonFetch
    rw [herr]
    simp [hnt]
  · unfold fetchMoonFromApi
    rw [h3]
    rfl

/-- An upstream for the C5 witness: 503 on the first call, 200 after. -/
def upTransientThenOk : ℕ → TarotAttempt :=
  fun i => if i = 0 then .httpErr 503 none else .ok "data"

/-- An upstream that always answers 503. -/
def upAlways503 : ℕ → TarotAttempt := fun _ => .httpErr 503 none

/-- C5 (witness): the retry policy instantiated on concrete upstreams:
a 503-then-200 tarot upstream succeeds with two calls, an always-503
tarot upstream fails after two calls, and a 503 astronomy upstream fails
`fetchMoonFromApi` after one call. -/
theorem jsonFetch_retry_policy_witness :
    jsonFetch upTransientThenOk 0 ⟨"GET", "/daily", none⟩ =
      ⟨.ok "data", 0 + 2, [⟨"GET", "/daily", none⟩, ⟨"GET", "/daily", none⟩]⟩ ∧
    (∃ msg, jsonFetch upAlways503 0 ⟨"GET", "/daily", none⟩ =
      ⟨.error ⟨some 503, msg⟩, 0 + 2,
        [⟨"GET", "/daily", none⟩, ⟨"GET", "/daily", none⟩]⟩) ∧
    (∀ (up : ℕ → TarotAttempt) (n : ℕ) (req : TarotReq),
      n + 1 ≤ (jsonFetch up n req).calls ∧ (jsonFetch up n req).calls ≤ n + 2) ∧
    (∀ (up : ℕ → TarotAttempt) (n : ℕ) (req : TarotReq) (e : TarotErr),
      runAttempt (up n) = .error e → isTransient e.status = false →
      jsonFetch up n req = ⟨.error e, n + 1, [req]⟩) ∧
    fetchMoonFromApi true astro503Then200 0 "2025-08-23"
        (some 43) (some (-116)) none none =
      (.error ⟨502, "Moon API error: " ++ toString 503, some "busy"⟩, 0 + 1) :=
  jsonFetch_retry_policy upTransientThenOk upAlways503 0 0
    ⟨"GET", "/daily", none⟩ ⟨"GET", "/daily", none⟩ "data" none none none
    astro503Then200 0 "2025-08-23" 43 (-116) "busy"
    rfl rfl rfl rfl rfl

/-! ## Claim C7: `drawYesNo` never touches the cache -/

/-- C7: every `drawYesNo` call of the cached tarot service leaves the
in-memory TTL cache store exactly as it was and strictly advances the
upstream call counter (the upstream is reached); hence two consecutive
calls with identical input both reach the upstream — the second is not
served from any cache — regardless of how close in time they occur (the
model has no time dependence at all for this operation). -/
theorem drawYesNo_uncached (up : ℕ → TarotAttempt) (n : ℕ)
    (s : Store String) (q : Option String) :
    (drawYesNo up n s q).2.1 = s ∧
    n < (drawYesNo up n s q).2.2 ∧
    (drawYesNo up (drawYesNo up n s q).2.2 (drawYesNo up n s q).2.1 q).2.1 =
      s ∧
    (drawYesNo up n s q).2.2 <
      (drawYesNo up (drawYesNo up n s q).2.2 (drawYesNo up n s q).2.1 q).2.2 := by
  have hstore : ∀ (m : ℕ) (t : Store String), (drawYesNo up m t q).2.1 = t := by
    intro m t
    unfold drawYesNo
    by_cases hq : jsTruthyStr q <;> simp [hq]
  have hcalls : ∀ (m : ℕ) (t : Store String), m < (drawYesNo up m t q).2.2 := by
    intro m t
    unfold drawYesNo
    by_cases hq : jsTruthyStr q <;>
      simpa [hq] using jsonFetch_calls_gt up m _
  exact ⟨hstore n s, hcalls n s, by rw [hstore n s]; exact hstore _ s,
    by rw [hstore n s]; exact hcalls _ s⟩

/-! ## Claim C8: `getCardById` fast-fails on a non-positive-integer id -/

/-- C8: for every id that is not a positive integer — `NaN` from
non-numeric input, any non-integer, and any integer `≤ 0`, in particular
`-1`, `0` and `1.5` — `getCardById` returns the status-400 "Invalid id"
error with the cache store and the upstream call counter unchanged (no
network request, no cache read or write); for every positive-integer id
the validation passes and the call proceeds to the cached lookup path. -/
theorem getCardById_invalid_fast_fail (up : ℕ → TarotAttempt) (now : Int)
    (s₁ s₂ : Store String) (n₁ n₂ : ℕ) (id₁ : Option ℚ) (m : ℤ)
    (hbad : ∀ j : ℤ, 0 < j → id₁ ≠ some (j : ℚ)) (hm : 0 < m) :
    getCardById up now s₁ n₁ id₁ =
      (.error ⟨some 400, "Invalid id"⟩, s₁, n₁) ∧
    getCardById up now s₂ n₂ (some (m : ℚ)) = cardLookup up now s₂ n₂ m ∧
    getCardById up now s₁ n₁ none =
      (.error ⟨some 400, "Invalid id"⟩, s₁, n₁) ∧
    getCardById up now s₁ n₁ (some (-1)) =
      (.error ⟨some 400, "Invalid id"⟩, s₁, n₁) ∧
    getCardById up now s₁ n₁ (some 0) =
      (.error ⟨some 400, "Invalid id"⟩, s₁, n₁) ∧
    getCardById up now s₁ n₁ (some (3/2)) =
      (.error ⟨some 400, "Invalid id"⟩, s₁, n₁) := by
  have hirr : ∀ q : ℚ, ¬(q.den = 1 ∧ 0 < q) →
      getCardById up now s₁ n₁ (some q) =
        (.error ⟨some 400, "Invalid id"⟩, s₁, n₁) := by
    intro q hq
    show (if q.den = 1 ∧ 0 < q then cardLookup up now s₁ n₁ q.num
      else (.error ⟨some 400, "Invalid id"⟩, s₁, n₁)) =
      (.error ⟨some 400, "Invalid id"⟩, s₁, n₁)
    rw [if_neg hq]
  refine ⟨?_, ?_, rfl, ?_, ?_, ?_⟩
  · match id₁ with
    | none => rfl
    | some q =>
      refine hirr q ?_
      rintro ⟨hden, hpos⟩
      rw [Rat.den_eq_one_iff] at hden
      have hnum : 0 < q.num := Rat.num_pos.mpr hpos
      exact hbad q.num hnum (by rw [hden])
  · show (if (m : ℚ).den = 1 ∧ 0 < (m : ℚ) then
        cardLookup up now s₂ n₂ (m : ℚ).num
      else (.error ⟨some 400, "Invalid id"⟩, s₂, n₂)) =
      cardLookup up now s₂ n₂ m
    rw [if_pos (show ((m : ℚ).den = 1 ∧ 0 < (m : ℚ)) from
      ⟨Rat.den_intCast m, by exact_mod_cast hm⟩)]
    rw [Rat.num_intCast]
  · exact hirr (-1) (by rintro ⟨-, hpos⟩; norm_num at hpos)
  · exact hirr 0 (by rintro ⟨-, hpos⟩; norm_num at hpos)
  · refine hirr (3/2) ?_
    rintro ⟨hden, -⟩
    rw [Rat.den_eq_one_iff] at hden
    have h2 : (2 : ℚ) * (((3/2 : ℚ)).num : ℚ) = 3 := by
      rw [hden]; norm_num
    have h3 : (2 * (3/2 : ℚ).num : ℤ) = 3 := by exact_mod_cast h2
    omega

/-- C8 (witness): a non-numeric id is rejected with the store and counter
untouched, and the positive integer id `3` passes validation and reaches
the cached lookup. -/
theorem getCardById_invalid_fast_fail_witness :
    getCardById upAlways503 0 ([] : Store String) 0 none =
      (.error ⟨some 400, "Invalid id"⟩, ([] : Store String), 0) ∧
    getCardById upAlways503 0 ([] : Store String) 0 (some ((3 : ℤ) : ℚ)) =
      cardLookup upAlways503 0 ([] : Store String) 0 3 :=
  ⟨(getCardById_invalid_fast_fail upAlways503 0 [] [] 0 0 none 3
      (fun _ _ => by simp) (by norm_num)).1,
   (getCardById_invalid_fast_fail upAlways503 0 [] [] 0 0 none 3
      (fun _ _ => by simp) (by norm_num)).2.1⟩


/-! ## Claim C9: GET with one-time POST fallback on 405 -/

theorem jsonFetch_log_head (up : ℕ → TarotAttempt) (n : ℕ)
    (req : TarotReq) : (jsonFetch up n req).log.head? = some req := by
  rcases jsonFetch_log_cases up n req with h | h <;> simp [h]

/-- The question-less legacy `drawYesNo` unfolded: a GET, then either the
resolved value, a one-time POST fallback on a 405 failure, or the
propagated error. -/
theorem drawYesNoLegacy_none_def (up : ℕ → TarotAttempt) (n : ℕ) :
    drawYesNoLegacy up n none =
      (match (jsonFetch up n ⟨"GET", "/yesno", none⟩).result with
       | .ok d =>
         ⟨.ok d, (jsonFetch up n ⟨"GET", "/yesno", none⟩).calls,
           (jsonFetch up n ⟨"GET", "/yesno", none⟩).log, 0⟩
       | .error e =>
         if e.status = some 405 then
           ⟨(jsonFetch up (jsonFetch up n ⟨"GET", "/yesno", none⟩).calls
               ⟨"POST", "/yesno", some .emptyJson⟩).result,
             (jsonFetch up (jsonFetch up n ⟨"GET", "/yesno", none⟩).calls
               ⟨"POST", "/yesno", some .emptyJson⟩).calls,
             (jsonFetch up n ⟨"GET", "/yesno", none⟩).log ++
               (jsonFetch up (jsonFetch up n ⟨"GET", "/yesno", none⟩).calls
                 ⟨"POST", "/yesno", some .emptyJson⟩).log, 1⟩
         else
           ⟨.error e, (jsonFetch up n ⟨"GET", "/yesno", none⟩).calls,
             (jsonFetch up n ⟨"GET", "/yesno", none⟩).log, 0⟩ :
        YesNoOut) := rfl

/-- C9: a legacy `drawYesNo` call without a question issues the GET to
`/yesno` first (for every upstream); when the GET's `jsonFetch` fails
with status 405, exactly one fallback `jsonFetch` POST with the empty
JSON body `"{}"` is performed and its outcome returned (`fallbacks = 1`);
when the GET fails with any other error the failure propagates with no
fallback attempt (`fallbacks = 0`); and a successful GET performs no
fallback either — so the fallback POST happens if and only if the GET
failed with 405. -/
theorem drawYesNoLegacy_405_fallback (up₁ up₂ up₃ : ℕ → TarotAttempt)
    (n₁ n₂ n₃ : ℕ) (e₁ e₂ : TarotErr) (d₃ : String)
    (h1 : (jsonFetch up₁ n₁ ⟨"GET", "/yesno", none⟩).result = .error e₁)
    (h1s : e₁.status = some 405)
    (h2 : (jsonFetch up₂ n₂ ⟨"GET", "/yesno", none⟩).result = .error e₂)
    (h2s : e₂.status ≠ some 405)
    (h3 : (jsonFetch up₃ n₃ ⟨"GET", "/yesno", none⟩).result = .ok d₃) :
    (∀ (up : ℕ → TarotAttempt) (n : ℕ),
      (drawYesNoLegacy up n none).log.head? =
        some ⟨"GET", "/yesno", none⟩) ∧
    drawYesNoLegacy up₁ n₁ none =
      ⟨(jsonFetch up₁ (jsonFetch up₁ n₁ ⟨"GET", "/yesno", none⟩).calls
          ⟨"POST", "/yesno", some .emptyJson⟩).result,
        (jsonFetch up₁ (jsonFetch up₁ n₁ ⟨"GET", "/yesno", none⟩).calls
          ⟨"POST", "/yesno", some .emptyJson⟩).calls,
        (jsonFetch up₁ n₁ ⟨"GET", "/yesno", none⟩).log ++
          (jsonFetch up₁ (jsonFetch up₁ n₁ ⟨"GET", "/yesno", none⟩).calls
            ⟨"POST", "/yesno", some .emptyJson⟩).log, 1⟩ ∧
    drawYesNoLegacy up₂ n₂ none =
      ⟨.error e₂, (jsonFetch up₂ n₂ ⟨"GET", "/yesno", none⟩).calls,
        (jsonFetch up₂ n₂ ⟨"GET", "/yesno", none⟩).log, 0⟩ ∧
    drawYesNoLegacy up₃ n₃ none =
      ⟨.ok d₃, (jsonFetch up₃ n₃ ⟨"GET", "/yesno", none⟩).calls,
        (jsonFetch up₃ n₃ ⟨"GET", "/yesno", none⟩).log, 0⟩ := by
  refine ⟨?_, ?_, ?_, ?_⟩
  · intro up n
    rw [drawYesNoLegacy_none_def up n]
    rcases hr : (jsonFetch up n ⟨"GET", "/yesno", none⟩).result with e | d
    · rcases jsonFetch_log_cases up n ⟨"GET", "/yesno", none⟩ with h | h <;>
        by_cases h405 : e.status = some 405 <;>
        simp [h405, h]
    · rcases jsonFetch_log_cases up n ⟨"GET", "/yesno", none⟩ with h | h <;>
        simp [h]
  · rw [drawYesNoLegacy_none_def up₁ n₁, h1]
    show (if e₁.status = some 405 then _ else _ : YesNoOut) = _
    rw [if_pos h1s]
  · rw [drawYesNoLegacy_none_def up₂ n₂, h2]
    show (if e₂.status = some 405 then _ else _ : YesNoOut) = _
    rw [if_neg h2s]
  · rw [drawYesNoLegacy_none_def up₃ n₃, h3]

/-- The upstream used by the C9 witness: 405 to every GET, `"Yes"` to
everything else (i.e. to the fallback POST). -/
def up405OnGet : ℕ → TarotAttempt := fun i =>
  if i = 0 then .httpErr 405 none else .ok "Yes"

/-- C9 (witness): against an upstream answering 405 to the GET and 200 to
the POST, the question-less legacy draw performs the single fallback POST
and resolves with its payload; against an always-404 upstream the error
propagates with no fallback; against an always-200 upstream there is no
fallback either. -/
theorem drawYesNoLegacy_405_fallback_witness :
    drawYesNoLegacy up405OnGet 0 none =
      ⟨(jsonFetch up405OnGet
          (jsonFetch up405OnGet 0 ⟨"GET", "/yesno", none⟩).calls
          ⟨"POST", "/yesno", some .emptyJson⟩).result,
        (jsonFetch up405OnGet
          (jsonFetch up405OnGet 0 ⟨"GET", "/yesno", none⟩).calls
          ⟨"POST", "/yesno", some .emptyJson⟩).calls,
        (jsonFetch up405OnGet 0 ⟨"GET", "/yesno", none⟩).log ++
          (jsonFetch up405OnGet
            (jsonFetch up405OnGet 0 ⟨"GET", "/yesno", none⟩).calls
            ⟨"POST", "/yesno", some .emptyJson⟩).log, 1⟩ ∧
    drawYesNoLegacy (fun _ => .httpErr 404 none) 0 none =
      ⟨.error ⟨some 404, "Tarot API error " ++ toString 404⟩,
        (jsonFetch (fun _ => .httpErr 404 none) 0
          ⟨"GET", "/yesno", none⟩).calls,
        (jsonFetch (fun _ => .httpErr 404 none) 0
          ⟨"GET", "/yesno", none⟩).log, 0⟩ ∧
    drawYesNoLegacy (fun _ => .ok "No") 0 none =
      ⟨.ok "No",
        (jsonFetch (fun _ => .ok "No") 0 ⟨"GET", "/yesno", none⟩).calls,
        (jsonFetch (fun _ => .ok "No") 0 ⟨"GET", "/yesno", none⟩).log, 0⟩ :=
  ⟨(drawYesNoLegacy_405_fallback up405OnGet (fun _ => .httpErr 404 none)
      (fun _ => .ok "No") 0 0 0
      ⟨some 405, "Tarot API error " ++ toString 405⟩
      ⟨some 404, "Tarot API error " ++ toString 404⟩ "No"
      rfl rfl rfl (by simp) rfl).2.1,
   (drawYesNoLegacy_405_fallback up405OnGet (fun _ => .httpErr 404 none)
      (fun _ => .ok "No") 0 0 0
      ⟨some 405, "Tarot API error " ++ toString 405⟩
      ⟨some 404, "Tarot API error " ++ toString 404⟩ "No"
      rfl rfl rfl (by simp) rfl).2.2.1,
   (drawYesNoLegacy_405_fallback up405OnGet (fun _ => .httpErr 404 none)
      (fun _ => .ok "No") 0 0 0
      ⟨some 405, "Tarot API error " ++ toString 405⟩
      ⟨some 404, "Tarot API error " ++ toString 404⟩ "No"
      rfl rfl rfl (by simp) rfl).2.2.2⟩


/-! ## Moon service helper lemmas -/

theorem fetchMoon_coords_ok (astro : ℕ → AstroResp) (calls : ℕ)
    (d : String) (la lo : ℚ) (raw : AstroRaw) (hok : astro calls = .ok raw) :
    fetchMoonFromApi true astro calls d (some la) (some lo) none none =
      (.ok (normalizeAstro raw (some la) (some lo)), calls + 1) := by
  simp [fetchMoonFromApi, hok]

theorem getMoonFor_coords_ok (astro : ℕ → AstroResp) (calls : ℕ)
    (now : Int) (db : MoonDb) (d : String) (la lo : ℚ) (raw : AstroRaw)
    (hd : d ≠ "") (hok : astro calls = .ok raw) :
    getMoonFor true astro calls now db (some (.str d)) (some la) (some lo)
        none none =
      moonCachePhase now db d
        (normalizeAstro raw (some (round2 la)) (some (round2 lo)))
        (calls + 1) := by
  have hdate : toYMD (dateOrNow now (some (.str d))) = d := by
    simp [dateOrNow, hd, toYMD]
  unfold getMoonFor
  rw [hdate]
  simp only [Option.map_some']
  rw [fetchMoon_coords_ok astro calls d (round2 la) (round2 lo) raw hok]

theorem moonCachePhase_hit (now : Int) (db : MoonDb) (d : String)
    (first : MoonNorm) (c : ℕ) (m : MoonRow)
    (hrow : findMoonRow db d (round2 (jsNumberOfNullable first.location.lat))
      (round2 (jsNumberOfNullable first.location.lon)) = some m)
    (hfresh : now - m.created_at ≤ 86400000) :
    moonCachePhase now db d first c = (.ok (moonSnapshotOf m first, db), c) := by
  simp only [moonCachePhase]
  simp only [hrow]
  have hf : moonRowFresh now m = true := by
    simp [moonRowFresh, hfresh]
  rw [if_pos hf]

theorem moonCachePhase_stale (now : Int) (db : MoonDb) (d : String)
    (first : MoonNorm) (c : ℕ) (m : MoonRow)
    (hrow : findMoonRow db d (round2 (jsNumberOfNullable first.location.lat))
      (round2 (jsNumberOfNullable first.location.lon)) = some m)
    (hstale : 86400000 < now - m.created_at) :
    moonCachePhase now db d first c =
      (.ok (moonSnapshotOf
          (upsertMoonRow now db d
            (round2 (jsNumberOfNullable first.location.lat))
            (round2 (jsNumberOfNullable first.location.lon)) first.phase
            (combineDateTime d first.moonrise)
            (combineDateTime d first.moonset)).1 first,
        (upsertMoonRow now db d
            (round2 (jsNumberOfNullable first.location.lat))
            (round2 (jsNumberOfNullable first.location.lon)) first.phase
            (combineDateTime d first.moonrise)
            (combineDateTime d first.moonset)).2), c) := by
  simp only [moonCachePhase]
  simp only [hrow]
  have hf : ¬(moonRowFresh now m = true) := by
    simp only [moonRowFresh, decide_eq_true_eq]
    omega
  rw [if_neg hf]

theorem moonCachePhase_calls (now : Int) (db : MoonDb) (d : String)
    (first : MoonNorm) (c : ℕ) : (moonCachePhase now db d first c).2 = c := by
  simp only [moonCachePhase]
  rcases hfind : findMoonRow db d (round2 (jsNumberOfNullable first.location.lat))
    (round2 (jsNumberOfNullable first.location.lon)) with - | m
  · rfl
  · by_cases hf : moonRowFresh now m <;> simp [hf]

theorem upsertMoonRow_fst (now : Int) (db : MoonDb) (d : String)
    (la lo : ℚ) (ph mr ms : Option String) :
    (upsertMoonRow now db d la lo ph mr ms).1 = ⟨d, la, lo, ph, mr, ms, now⟩ := by
  unfold upsertMoonRow
  rcases findMoonRow db d la lo with - | m <;> rfl

theorem moonKeyMatch_self (d : String) (la lo : ℚ)
    (ph mr ms : Option String) (t : Int) :
    moonKeyMatch d la lo ⟨d, la, lo, ph, mr, ms, t⟩ = true := by
  simp [moonKeyMatch]

theorem findMoonRow_upsert_self (now : Int) (db : MoonDb) (d : String)
    (la lo : ℚ) (ph mr ms : Option String) :
    findMoonRow (upsertMoonRow now db d la lo ph mr ms).2 d la lo =
      some ⟨d, la, lo, ph, mr, ms, now⟩ := by
  unfold upsertMoonRow
  rcases hfind : findMoonRow db d la lo with - | m
  · show findMoonRow (db ++ [⟨d, la, lo, ph, mr, ms, now⟩]) d la lo = _
    unfold findMoonRow at hfind ⊢
    rw [List.find?_append, hfind]
    simp [moonKeyMatch_self]
  · show findMoonRow (db.map fun r =>
      if moonKeyMatch d la lo r then ⟨d, la, lo, ph, mr, ms, now⟩ else r)
      d la lo = _
    unfold findMoonRow at hfind ⊢
    induction db with
    | nil => simp at hfind
    | cons r t ih =>
      by_cases hr : moonKeyMatch d la lo r
      · simp only [List.map_cons, if_pos hr]
        rw [List.find?_cons_of_pos _ (moonKeyMatch_self d la lo ph mr ms now)]
      · rw [List.find?_cons_of_neg _ hr] at hfind
        simp only [List.map_cons, if_neg hr]
        rw [List.find?_cons_of_neg _ hr]
        exact ih hfind

theorem upsertMoonRow_length (now : Int) (db : MoonDb) (d : String)
    (la lo : ℚ) (ph mr ms : Option String) (m : MoonRow)
    (hfind : findMoonRow db d la lo = some m) :
    (upsertMoonRow now db d la lo ph mr ms).2.length = db.length := by
  unfold upsertMoonRow
  rw [hfind]
  simp


/-! ## Claim C1: one upstream call per `getMoonFor`; hit composition -/

/-- C1: every `getMoonFor` call that reaches the upstream (credentials
present, coordinates supplied) performs exactly one astronomy request —
whatever the durable cache holds — and when a fresh (age ≤ 24h) row
exists under the key `(canonicalDate, roundedLat, roundedLon)`, the
returned snapshot takes `phase`/`moonrise`/`moonset` from the cached row
while `zodiacSign` and the location labels (city, state, country,
locality, elevation) come from the just-issued upstream response. -/
theorem getMoonFor_one_call_hit_composition (astro : ℕ → AstroResp)
    (calls : ℕ) (now : Int) (db₁ db₂ : MoonDb) (raw : AstroRaw) (la lo : ℚ)
    (d : String) (first : MoonNorm) (m : MoonRow)
    (hd : d ≠ "") (hok : astro calls = .ok raw)
    (hfirst : normalizeAstro raw (some (round2 la)) (some (round2 lo)) = first)
    (hrow : findMoonRow db₂ d
      (round2 (jsNumberOfNullable first.location.lat))
      (round2 (jsNumberOfNullable first.location.lon)) = some m)
    (hfresh : now - m.created_at ≤ 86400000) :
    (getMoonFor true astro calls now db₁ (some (.str d)) (some la) (some lo)
      none none).2 = calls + 1 ∧
    getMoonFor true astro calls now db₂ (some (.str d)) (some la) (some lo)
      none none = (.ok (moonSnapshotOf m first, db₂), calls + 1) ∧
    (moonSnapshotOf m first).phase = m.phase ∧
    (moonSnapshotOf m first).moonrise = m.moonrise ∧
    (moonSnapshotOf m first).moonset = m.moonset ∧
    (moonSnapshotOf m first).zodiacSign = first.zodiacSign ∧
    (moonSnapshotOf m first).location.city = first.location.city ∧
    (moonSnapshotOf m first).location.state = first.location.state ∧
    (moonSnapshotOf m first).location.country = first.location.country ∧
    (moonSnapshotOf m first).location.locality = first.location.locality ∧
    (moonSnapshotOf m first).location.elevation = first.location.elevation := by
  subst hfirst
  refine ⟨?_, ?_, rfl, rfl, rfl, rfl, rfl, rfl, rfl, rfl, rfl⟩
  · rw [getMoonFor_coords_ok astro calls now db₁ d la lo raw hd hok]
    exact moonCachePhase_calls now db₁ d _ (calls + 1)
  · rw [getMoonFor_coords_ok astro calls now db₂ d la lo raw hd hok]
    exact moonCachePhase_hit now db₂ d _ (calls + 1) m hrow hfresh

/-- The upstream JSON used by the moon witnesses: coordinates echoed for
Boise, a phase, rise/set times and a zodiac sign. -/
def astroRawBoise : AstroRaw :=
  { location := some
      ⟨some (4361/100), some (-11620/100), some "Boise", some "Idaho",
        some "United States", none, none⟩,
    astronomy := none,
    moon_phase := some "Full Moon", moonPhase := none, moon_status := none,
    moonrise := some "17:23", moonset := some "02:41",
    moon_zodiac := some "Leo", moon_sign := none }

/-- An astronomy upstream that always answers 200 with `astroRawBoise`. -/
def astroOkBoise : ℕ → AstroResp := fun _ => .ok astroRawBoise

/-- The normalized result of one `astroRawBoise` response for the witness
inputs. -/
def firstBoise : MoonNorm :=
  normalizeAstro astroRawBoise (some (round2 (43615/1000)))
    (some (round2 (-1162025/10000)))

/-- A durable row for `(2025-08-23, 43.61, -116.20)` created at time 0,
read at `now = 86400000` — age exactly 24h, the fresh side of the
boundary. -/
def moonRowBoise : MoonRow :=
  ⟨"2025-08-23", 4361/100, -11620/100, some "Waning Gibbous",
    some "2025-08-22 17:10:00", none, 0⟩

theorem firstBoise_lat :
    round2 (jsNumberOfNullable firstBoise.location.lat) = 4361/100 := by
  norm_num [firstBoise, normalizeAstro, astroRawBoise, jsNumberOfNullable,
    round2, jsRound, Rat.floor_def']

theorem firstBoise_lon :
    round2 (jsNumberOfNullable firstBoise.location.lon) = -11620/100 := by
  norm_num [firstBoise, normalizeAstro, astroRawBoise, jsNumberOfNullable,
    round2, jsRound, Rat.floor_def']

theorem findMoonRow_boise :
    findMoonRow [moonRowBoise] "2025-08-23"
      (round2 (jsNumberOfNullable firstBoise.location.lat))
      (round2 (jsNumberOfNullable firstBoise.location.lon)) =
      some moonRowBoise := by
  rw [firstBoise_lat, firstBoise_lon]
  simp [findMoonRow, moonKeyMatch, moonRowBoise]

/-- C1 (witness): against the Boise upstream with a fresh cached row at
age exactly 24h, `getMoonFor` performs one upstream call on an empty
store and on the store holding the row, and on the latter returns the
hit snapshot. -/
theorem getMoonFor_one_call_hit_composition_witness :
    (getMoonFor true astroOkBoise 0 86400000 [] (some (.str "2025-08-23"))
      (some (43615/1000)) (some (-1162025/10000)) none none).2 = 0 + 1 ∧
    getMoonFor true astroOkBoise 0 86400000 [moonRowBoise]
      (some (.str "2025-08-23")) (some (43615/1000))
      (some (-1162025/10000)) none none =
      (.ok (moonSnapshotOf moonRowBoise firstBoise, [moonRowBoise]), 0 + 1) :=
  ⟨(getMoonFor_one_call_hit_composition astroOkBoise 0 86400000 []
      [moonRowBoise] astroRawBoise (43615/1000) (-1162025/10000)
      "2025-08-23" firstBoise moonRowBoise (by simp) rfl rfl
      findMoonRow_boise (by norm_num [moonRowBoise])).1,
   (getMoonFor_one_call_hit_composition astroOkBoise 0 86400000 []
      [moonRowBoise] astroRawBoise (43615/1000) (-1162025/10000)
      "2025-08-23" firstBoise moonRowBoise (by simp) rfl rfl
      findMoonRow_boise (by norm_num [moonRowBoise])).2.1⟩

/-! ## Claim C6: the 24-hour freshness boundary of the durable cache -/

/-- C6: a durable row older than 24 hours is stale — `getMoonFor` upserts
the freshly fetched `phase`/`moonrise`/`moonset` for the key with
`created_at` reset to `now`, updating in place (the store keeps its
size, and the key now holds the refreshed row) — while a row of age at
most 24 hours (e.g. 23h59m) is fresh and triggers no upsert (the store
is returned unchanged): the stale/fresh boundary sits exactly at 24
hours (`now - created_at ≤ 86400000` ms). -/
theorem getMoonFor_freshness_boundary (astro : ℕ → AstroResp) (calls : ℕ)
    (now : Int) (dbS dbF : MoonDb) (raw : AstroRaw) (la lo : ℚ) (d : String)
    (first : MoonNorm) (mS mF : MoonRow)
    (hd : d ≠ "") (hok : astro calls = .ok raw)
    (hfirst : normalizeAstro raw (some (round2 la)) (some (round2 lo)) = first)
    (hrowS : findMoonRow dbS d
      (round2 (jsNumberOfNullable first.location.lat))
      (round2 (jsNumberOfNullable first.location.lon)) = some mS)
    (hstale : 86400000 < now - mS.created_at)
    (hrowF : findMoonRow dbF d
      (round2 (jsNumberOfNullable first.location.lat))
      (round2 (jsNumberOfNullable first.location.lon)) = some mF)
    (hfresh : now - mF.created_at ≤ 86400000) :
    getMoonFor true astro calls now dbS (some (.str d)) (some la) (some lo)
        none none =
      (.ok (moonSnapshotOf
          ⟨d, round2 (jsNumberOfNullable first.location.lat),
            round2 (jsNumberOfNullable first.location.lon), first.phase,
            combineDateTime d first.moonrise, combineDateTime d first.moonset,
            now⟩ first,
        (upsertMoonRow now dbS d
          (round2 (jsNumberOfNullable first.location.lat))
          (round2 (jsNumberOfNullable first.location.lon)) first.phase
          (combineDateTime d first.moonrise)
          (combineDateTime d first.moonset)).2), calls + 1) ∧
    findMoonRow (upsertMoonRow now dbS d
        (round2 (jsNumberOfNullable first.location.lat))
        (round2 (jsNumberOfNullable first.location.lon)) first.phase
        (combineDateTime d first.moonrise)
        (combineDateTime d first.moonset)).2 d
        (round2 (jsNumberOfNullable first.location.lat))
        (round2 (jsNumberOfNullable first.location.lon)) =
      some ⟨d, round2 (jsNumberOfNullable first.location.lat),
        round2 (jsNumberOfNullable first.location.lon), first.phase,
        combineDateTime d first.moonrise, combineDateTime d first.moonset,
        now⟩ ∧
    (upsertMoonRow now dbS d
        (round2 (jsNumberOfNullable first.location.lat))
        (round2 (jsNumberOfNullable first.location.lon)) first.phase
        (combineDateTime d first.moonrise)
        (combineDateTime d first.moonset)).2.length = dbS.length ∧
    getMoonFor true astro calls now dbF (some (.str d)) (some la) (some lo)
        none none =
      (.ok (moonSnapshotOf mF first, dbF), calls + 1) := by
  subst hfirst
  refine ⟨?_, findMoonRow_upsert_self now dbS d _ _ _ _ _,
    upsertMoonRow_length now dbS d _ _ _ _ _ mS hrowS, ?_⟩
  · rw [getMoonFor_coords_ok astro calls now dbS d la lo raw hd hok]
    rw [moonCachePhase_stale now dbS d _ (calls + 1) mS hrowS hstale]
    rw [upsertMoonRow_fst]
  · rw [getMoonFor_coords_ok astro calls now dbF d la lo raw hd hok]
    exact moonCachePhase_hit now dbF d _ (calls + 1) mF hrowF hfresh

/-- A durable Boise row created 24h1s before the witness read time
`now = 86400000`: the stale side of the boundary. -/
def moonRowStaleBoise : MoonRow :=
  ⟨"2025-08-23", 4361/100, -11620/100, some "Waning Gibbous",
    none, none, -1000⟩

/-- A durable Boise row created 23h59m before the witness read time
`now = 86400000`: the fresh side of the boundary. -/
def moonRowAlmost24h : MoonRow :=
  ⟨"2025-08-23", 4361/100, -11620/100, some "Waning Gibbous",
    none, none, 60000⟩

theorem findMoonRow_staleBoise :
    findMoonRow [moonRowStaleBoise] "2025-08-23"
      (round2 (jsNumberOfNullable firstBoise.location.lat))
      (round2 (jsNumberOfNullable firstBoise.location.lon)) =
      some moonRowStaleBoise := by
  rw [firstBoise_lat, firstBoise_lon]
  simp [findMoonRow, moonKeyMatch, moonRowStaleBoise]

theorem findMoonRow_almost24h :
    findMoonRow [moonRowAlmost24h] "2025-08-23"
      (round2 (jsNumberOfNullable firstBoise.location.lat))
      (round2 (jsNumberOfNullable firstBoise.location.lon)) =
      some moonRowAlmost24h := by
  rw [firstBoise_lat, firstBoise_lon]
  simp [findMoonRow, moonKeyMatch, moonRowAlmost24h]

/-- C6 (witness): at `now = 86400000`, a row created at `-1000`
(age 24h1s) is refetched and upserted with `created_at = now`, while a
row created at `60000` (age 23h59m) is served with no upsert. -/
theorem getMoonFor_freshness_boundary_witness :
    getMoonFor true astroOkBoise 0 86400000 [moonRowStaleBoise]
        (some (.str "2025-08-23")) (some (43615/1000))
        (some (-1162025/10000)) none none =
      (.ok (moonSnapshotOf
          ⟨"2025-08-23", round2 (jsNumberOfNullable firstBoise.location.lat),
            round2 (jsNumberOfNullable firstBoise.location.lon),
            firstBoise.phase,
            combineDateTime "2025-08-23" firstBoise.moonrise,
            combineDateTime "2025-08-23" firstBoise.moonset, 86400000⟩
          firstBoise,
        (upsertMoonRow 86400000 [moonRowStaleBoise] "2025-08-23"
          (round2 (jsNumberOfNullable firstBoise.location.lat))
          (round2 (jsNumberOfNullable firstBoise.location.lon))
          firstBoise.phase
          (combineDateTime "2025-08-23" firstBoise.moonrise)
          (combineDateTime "2025-08-23" firstBoise.moonset)).2), 0 + 1) ∧
    getMoonFor true astroOkBoise 0 86400000 [moonRowAlmost24h]
        (some (.str "2025-08-23")) (some (43615/1000))
        (some (-1162025/10000)) none none =
      (.ok (moonSnapshotOf moonRowAlmost24h firstBoise, [moonRowAlmost24h]),
        0 + 1) :=
  ⟨(getMoonFor_freshness_boundary astroOkBoise 0 86400000 [moonRowStaleBoise]
      [moonRowAlmost24h] astroRawBoise (43615/1000) (-1162025/10000)
      "2025-08-23" firstBoise moonRowStaleBoise moonRowAlmost24h (by simp)
      rfl rfl findMoonRow_staleBoise (by norm_num [moonRowStaleBoise])
      findMoonRow_almost24h (by norm_num [moonRowAlmost24h])).1,
   (getMoonFor_freshness_boundary astroOkBoise 0 86400000 [moonRowStaleBoise]
      [moonRowAlmost24h] astroRawBoise (43615/1000) (-1162025/10000)
      "2025-08-23" firstBoise moonRowStaleBoise moonRowAlmost24h (by simp)
      rfl rfl findMoonRow_staleBoise (by norm_num [moonRowStaleBoise])
      findMoonRow_almost24h (by norm_num [moonRowAlmost24h])).2.2.2⟩

end Lunara
